import Mathlib

/-!
Shallow embedding of the AML structuring-detection engine of this
repository (`app/structuring_engine.py`, together with the request
validation of `app/schemas.py` / `app/main.py` where a property concerns
that layer).

Modelling conventions:

* All per-user Redis counters are gathered in one record `UserCounters`;
  a missing key is `none`.  Redis `INCRBY` / `INCR` / `DECR` treat a
  missing key as 0 and create it, which `incrby` below mirrors.
* Monetary values are integer cents (`Int`), exactly as the engine
  stores them.  The source converts cents to dollars (`/ 100.0`) only
  when formatting the returned `total`; the model keeps that field in
  cents (`CheckResult.total_cents`).
* `expire` calls only refresh a key's TTL; TTL expiry events are outside
  the properties treated here, so the pure model drops them.  The
  failure-injecting model (`check_structuring_f` below) still counts
  `expire` calls as store operations, because each can raise.
* Two of the source comparisons mix ints with float constants.
  `new_vol_cents >= DAILY_DEPOSIT_LIMIT_CENTS * 0.90`: the binary64
  product `1000000 * 0.90` is exactly `900000.0`, and int-to-float
  conversion is exact at these magnitudes, so on integer cent values the
  test is exactly `new_vol_cents ≥ 900000`.
  `new_count_24h >= WITHDRAWAL_VELOCITY_LIMIT_24H * 0.8`: the binary64
  product `12 * 0.8` lies strictly between 9.6 and 9.7, so on integer
  counts the test is exactly `new_count_24h ≥ 10`.
  The wagering-ratio test `total_wagered_cents / total_deposited_cents
  < MIN_WAGERING_RATIO` is modelled as the exact rational comparison,
  written in the equivalent integer form (see `wageringRatio_exact`).
* Python's `int(round(amount * 100))` (round half to even) on exact
  decimal inputs is modelled by `to_cents` over ℚ.
-/

/-- The per-user windowed counters held in the key-value store
(keys `user:<uid>:dep_vol_24h`, ..., `user:<uid>:last_deposit_time`).
A missing (never set, or expired) key is `none`. -/
structure UserCounters where
  dep_vol_24h : Option Int
  dep_cnt_24h : Option Int
  wd_vol_24h : Option Int
  wd_cnt_1h : Option Int
  wd_cnt_24h : Option Int
  wagered_24h : Option Int
  last_deposit_time : Option Int
deriving Repr, DecidableEq

/-- The state of a user with no keys set. -/
def emptyCounters : UserCounters :=
  ⟨none, none, none, none, none, none, none⟩

/-- Redis `INCRBY` / `INCR` / `DECR` semantics on one key: a missing key
counts as 0, and the new value is returned (the key now exists). -/
def incrby (o : Option Int) (d : Int) : Int := o.getD 0 + d

-- Configuration constants of `structuring_engine.py` (in cents / counts).
def DAILY_DEPOSIT_LIMIT_CENTS : Int := 10000 * 100
def DAILY_WITHDRAWAL_LIMIT_CENTS : Int := 50000 * 100
def DEPOSIT_VELOCITY_LIMIT_24H : Int := 15
def WITHDRAWAL_VELOCITY_LIMIT_1H : Int := 5
def WITHDRAWAL_VELOCITY_LIMIT_24H : Int := 12
def MIN_WAGERING_RATIO : ℚ := 5 / 100
def QUICK_WITHDRAWAL_WINDOW_SECONDS : Int := 3600

/-- Outcome identifiers, one per distinct reason string the engine
formats; constructor arguments carry the values interpolated into the
source message. -/
inductive Reason where
  | invalidAmount : Reason
  | invalidType (txn_type : String) : Reason
  | systemErrorHistory : Reason
  | depositLimitExceeded (new_vol_cents : Int) : Reason
  | structuringDetected (new_count new_vol_cents : Int) : Reason
  | depositNearLimit (new_vol_cents : Int) : Reason
  | safe : Reason
  | withdrawalLimitExceeded (new_vol_cents : Int) : Reason
  | velocityExceeded1h (new_count_1h : Int) : Reason
  | reverseSmurfing (new_count_24h : Int) : Reason
  | quickWithdrawal (time_since_deposit : Int) : Reason
  | insufficientBetting (total_wagered_cents total_deposited_cents : Int) : Reason
  | highWithdrawalFrequency (new_count_24h : Int) : Reason
deriving Repr, DecidableEq

/-- The dictionary returned by every check
(`allowed` / `risk_score` / `reason` / `total`); `total_cents` is the
source's `total` before its division by 100.0. -/
structure CheckResult where
  allowed : Bool
  risk_score : Int
  reason : Reason
  total_cents : Int
deriving Repr, DecidableEq

/-- Helper `_rollback_deposit` of `structuring_engine.py`: decrement the
two deposit counters. -/
def _rollback_deposit (s : UserCounters) (amount_cents : Int) : UserCounters :=
  { s with
    dep_vol_24h := some (incrby s.dep_vol_24h (-amount_cents)),
    dep_cnt_24h := some (incrby s.dep_cnt_24h (-1)) }

/-- Helper `_rollback_withdrawal` of `structuring_engine.py`: decrement
the three withdrawal counters, decrement `wagered_24h` by 1 (the source
calls `decr` on it), and delete `last_deposit_time`. -/
def _rollback_withdrawal (s : UserCounters) (amount_cents : Int) : UserCounters :=
  { s with
    wd_vol_24h := some (incrby s.wd_vol_24h (-amount_cents)),
    wd_cnt_1h := some (incrby s.wd_cnt_1h (-1)),
    wd_cnt_24h := some (incrby s.wd_cnt_24h (-1)),
    wagered_24h := some (incrby s.wagered_24h (-1)),
    last_deposit_time := none }

/-- `_check_deposit` of `structuring_engine.py`: increment
`dep_vol_24h` by the amount and `dep_cnt_24h` by 1, then apply the
deposit rules in source order.  `now` is the current unix time used for
`last_deposit_time` on the clean-approve path. -/
def _check_deposit (s : UserCounters) (amount_cents : Int) (now : Int) :
    CheckResult × UserCounters :=
  let new_vol_cents := incrby s.dep_vol_24h amount_cents
  let new_count := incrby s.dep_cnt_24h 1
  let s1 : UserCounters :=
    { s with dep_vol_24h := some new_vol_cents, dep_cnt_24h := some new_count }
  -- RULE 1: hard daily limit (block, rolled back)
  if new_vol_cents > DAILY_DEPOSIT_LIMIT_CENTS then
    (⟨false, 100, .depositLimitExceeded new_vol_cents, new_vol_cents - amount_cents⟩,
      _rollback_deposit s1 amount_cents)
  -- RULE 2: fan-in smurfing (block, NOT rolled back in the source)
  else if new_count > DEPOSIT_VELOCITY_LIMIT_24H ∧ new_vol_cents > 5000 * 100 then
    (⟨false, 95, .structuringDetected new_count new_vol_cents, new_vol_cents⟩, s1)
  -- RULE 3: just under threshold (warning); source compares against the
  -- float `DAILY_DEPOSIT_LIMIT_CENTS * 0.90`, which is exactly 900000.0
  else if new_vol_cents ≥ 900000 then
    (⟨true, 80, .depositNearLimit new_vol_cents, new_vol_cents⟩, s1)
  -- approve: store the deposit timestamp for rapid-withdrawal detection
  else
    (⟨true, 0, .safe, new_vol_cents⟩, { s1 with last_deposit_time := some now })

/-- Rules 6 and the final approve branch of `_check_withdrawal`
(lines 240-259 of `structuring_engine.py`).  The source compares
`new_count_24h` against the float `WITHDRAWAL_VELOCITY_LIMIT_24H * 0.8`
(strictly between 9.6 and 9.7), so on integer counts the test is
`new_count_24h ≥ 10`. -/
def _withdrawal_rule6 (s1 : UserCounters) (new_vol_cents new_count_24h : Int) :
    CheckResult × UserCounters :=
  if new_count_24h ≥ 10 then
    (⟨true, 70, .highWithdrawalFrequency new_count_24h, new_vol_cents⟩, s1)
  else
    (⟨true, 0, .safe, new_vol_cents⟩, s1)

/-- Rule 5 of `_check_withdrawal` (lines 208-238): low betting activity.
The source reads `dep_vol_24h` (skipping the rule when the key is
missing — an existing key, even one holding 0, is a truthy string) and
`wagered_24h` (0 when missing), and blocks when the deposit volume is
positive and `total_wagered_cents / total_deposited_cents` is below
`MIN_WAGERING_RATIO` (= 0.05).  With `total_deposited_cents > 0` the
exact-rational reading of that test is
`20 * total_wagered_cents < total_deposited_cents`
(see `wageringRatio_exact` below), which is the decidable form used
here. -/
def _withdrawal_rule5 (s1 : UserCounters)
    (amount_cents new_vol_cents new_count_24h : Int) :
    CheckResult × UserCounters :=
  match s1.dep_vol_24h with
  | none => _withdrawal_rule6 s1 new_vol_cents new_count_24h
  | some total_deposited_cents =>
    let total_wagered_cents := s1.wagered_24h.getD 0
    if total_deposited_cents > 0 ∧
        20 * total_wagered_cents < total_deposited_cents then
      (⟨false, 85, .insufficientBetting total_wagered_cents total_deposited_cents,
          new_vol_cents - amount_cents⟩,
        _rollback_withdrawal s1 amount_cents)
    else _withdrawal_rule6 s1 new_vol_cents new_count_24h

/-- Rule 4 of `_check_withdrawal` (lines 189-206): quick withdrawal.
When `last_deposit_time` exists (any stored value is a truthy string)
and fewer than `QUICK_WITHDRAWAL_WINDOW_SECONDS` elapsed, block and roll
back; otherwise fall through to rule 5. -/
def _withdrawal_rule4 (s1 : UserCounters)
    (amount_cents now new_vol_cents new_count_24h : Int) :
    CheckResult × UserCounters :=
  match s1.last_deposit_time with
  | none => _withdrawal_rule5 s1 amount_cents new_vol_cents new_count_24h
  | some last_deposit_time =>
    let time_since_deposit := now - last_deposit_time
    if time_since_deposit < QUICK_WITHDRAWAL_WINDOW_SECONDS then
      (⟨false, 90, .quickWithdrawal time_since_deposit, new_vol_cents - amount_cents⟩,
        _rollback_withdrawal s1 amount_cents)
    else _withdrawal_rule5 s1 amount_cents new_vol_cents new_count_24h

/-- `_check_withdrawal` of `structuring_engine.py`: increment
`wd_vol_24h` by the amount and both withdrawal counts by 1, then apply
the withdrawal rules in source order (hard limit, hourly velocity, daily
velocity, then rules 4-6 via the helpers above). -/
def _check_withdrawal (s : UserCounters) (amount_cents : Int) (now : Int) :
    CheckResult × UserCounters :=
  let new_vol_cents := incrby s.wd_vol_24h amount_cents
  let new_count_1h := incrby s.wd_cnt_1h 1
  let new_count_24h := incrby s.wd_cnt_24h 1
  let s1 : UserCounters :=
    { s with
      wd_vol_24h := some new_vol_cents,
      wd_cnt_1h := some new_count_1h,
      wd_cnt_24h := some new_count_24h }
  -- RULE 1: hard daily limit (block)
  if new_vol_cents > DAILY_WITHDRAWAL_LIMIT_CENTS then
    (⟨false, 100, .withdrawalLimitExceeded new_vol_cents, new_vol_cents - amount_cents⟩,
      _rollback_withdrawal s1 amount_cents)
  -- RULE 2: hourly velocity (block)
  else if new_count_1h > WITHDRAWAL_VELOCITY_LIMIT_1H then
    (⟨false, 95, .velocityExceeded1h new_count_1h, new_vol_cents - amount_cents⟩,
      _rollback_withdrawal s1 amount_cents)
  -- RULE 3: daily velocity, reverse smurfing (block)
  else if new_count_24h > WITHDRAWAL_VELOCITY_LIMIT_24H then
    (⟨false, 90, .reverseSmurfing new_count_24h, new_vol_cents - amount_cents⟩,
      _rollback_withdrawal s1 amount_cents)
  else
    _withdrawal_rule4 s1 amount_cents now new_vol_cents new_count_24h

/-- The source's `int(round(amount * 100))` on an exact rational amount:
`100 * q = (100 * q.num) / q.den`, whose floor is `f` with remainder
`r` (`0 ≤ r < q.den`); Python's `round` takes the nearest integer with
ties to the even one, i.e. `f` when `2r < den`, `f + 1` when
`2r > den`, and the even of the two at an exact tie.  Written over
`q.num` / `q.den` so that it evaluates by kernel reduction. -/
def to_cents (q : ℚ) : Int :=
  let n : Int := 100 * q.num
  let d : Int := (q.den : Int)
  let f : Int := n.fdiv d
  let r : Int := n - f * d
  if 2 * r < d then f
  else if 2 * r > d then f + 1
  else if f % 2 = 0 then f else f + 1

/-- `check_structuring` of `structuring_engine.py` (the exception
handler aside, which only the failure-injecting model below exercises):
reject non-positive amounts, convert to cents, dispatch on the
transaction type. -/
def check_structuring (s : UserCounters) (amount : ℚ) (txn_type : String)
    (now : Int) : CheckResult × UserCounters :=
  if amount ≤ 0 then (⟨false, 100, .invalidAmount, 0⟩, s)
  else
    let amount_cents := to_cents amount
    if txn_type = "WITHDRAWAL" then _check_withdrawal s amount_cents now
    else if txn_type = "DEPOSIT" then _check_deposit s amount_cents now
    else (⟨false, 100, .invalidType txn_type, 0⟩, s)

/-- Result of `record_wager`: the source returns a dict with
`success = True` and the new total (in dollars, here kept in cents), or
`success = False` with a reason string. -/
inductive WagerOutcome where
  | success (total_wagered_cents : Int) : WagerOutcome
  | failure (reason : String) : WagerOutcome
deriving Repr, DecidableEq

/-- `record_wager` of `structuring_engine.py`: reject non-positive
amounts, otherwise increment `wagered_24h` by the amount in cents and
return the new total. -/
def record_wager (s : UserCounters) (wager_amount : ℚ) :
    WagerOutcome × UserCounters :=
  if wager_amount ≤ 0 then (.failure "Invalid wager amount", s)
  else
    let wager_cents := to_cents wager_amount
    let new_total_cents := incrby s.wagered_24h wager_cents
    (.success new_total_cents, { s with wagered_24h := some new_total_cents })

/-- The Wager Recorder flow: the `wager_must_be_positive` validator of
`app/schemas.py` (rejecting non-positive amounts and amounts above the
100,000-unit ceiling, then rounding to 2 decimals) followed by
`record_wager`, as wired in the `record-wager` endpoint of
`app/main.py`.  The validator hands `round(wager_amount, 2)` to
`record_wager`; since `round(round(a, 2) * 100) = round(a * 100)` and
`round(a, 2) ≤ 0 ↔ round(a * 100) ≤ 0`, the rounded value is carried
here as `to_cents wager_amount`. -/
def record_user_wager (s : UserCounters) (wager_amount : ℚ) :
    WagerOutcome × UserCounters :=
  if wager_amount ≤ 0 then
    (.failure "Wager amount must be greater than 0", s)
  else if wager_amount > 100000 then
    (.failure "Wager amount exceeds maximum ($100,000)", s)
  else if to_cents wager_amount ≤ 0 then
    (.failure "Invalid wager amount", s)
  else
    let new_total_cents := incrby s.wagered_24h (to_cents wager_amount)
    (.success new_total_cents, { s with wagered_24h := some new_total_cents })

/-!
Failure-injecting model of `check_structuring`.  The pure functions
above assume every store round-trip succeeds; the `_f` variants below
thread a per-call operation index and a failure oracle
(`fails : Nat → Bool`) deciding which round-trip raises
(`redis.RedisError`).  A raised operation has no effect on the
counters; every operation of the source body — including the pure-model
no-ops `expire` — counts, in source order.  The `try/except` of
`check_structuring` is the only handler: it converts any raise into the
fail-closed outcome.
-/

/-- State threaded through the failure-injecting model: the counters
plus the index of the next store operation of this call. -/
structure RState where
  cs : UserCounters
  idx : Nat
deriving Repr, DecidableEq

/-- Store computations that may raise. -/
abbrev RedisM (α : Type) := ExceptT Unit (StateM RState) α

/-- One store round-trip: raise if the failure oracle marks this
operation index, otherwise apply the operation's effect on the counters
and return its value. -/
def rop {α : Type} (fails : Nat → Bool) (f : UserCounters → α × UserCounters) :
    RedisM α := do
  let st ← get
  if fails st.idx then throw ()
  else
    let (a, cs) := f st.cs
    set (RState.mk cs (st.idx + 1))
    pure a

/-- `expire`: refreshes a TTL; no counter effect in this model, but a
store round-trip that can raise. -/
def opExpire (fails : Nat → Bool) : RedisM Unit :=
  rop fails fun cs => ((), cs)

def opIncrDepVol (fails : Nat → Bool) (d : Int) : RedisM Int :=
  rop fails fun cs =>
    let v := incrby cs.dep_vol_24h d
    (v, { cs with dep_vol_24h := some v })

def opIncrDepCnt (fails : Nat → Bool) (d : Int) : RedisM Int :=
  rop fails fun cs =>
    let v := incrby cs.dep_cnt_24h d
    (v, { cs with dep_cnt_24h := some v })

def opIncrWdVol (fails : Nat → Bool) (d : Int) : RedisM Int :=
  rop fails fun cs =>
    let v := incrby cs.wd_vol_24h d
    (v, { cs with wd_vol_24h := some v })

def opIncrWdCnt1h (fails : Nat → Bool) (d : Int) : RedisM Int :=
  rop fails fun cs =>
    let v := incrby cs.wd_cnt_1h d
    (v, { cs with wd_cnt_1h := some v })

def opIncrWdCnt24h (fails : Nat → Bool) (d : Int) : RedisM Int :=
  rop fails fun cs =>
    let v := incrby cs.wd_cnt_24h d
    (v, { cs with wd_cnt_24h := some v })

def opIncrWagered (fails : Nat → Bool) (d : Int) : RedisM Int :=
  rop fails fun cs =>
    let v := incrby cs.wagered_24h d
    (v, { cs with wagered_24h := some v })

def opGetLastDepTime (fails : Nat → Bool) : RedisM (Option Int) :=
  rop fails fun cs => (cs.last_deposit_time, cs)

def opGetDepVol (fails : Nat → Bool) : RedisM (Option Int) :=
  rop fails fun cs => (cs.dep_vol_24h, cs)

def opGetWagered (fails : Nat → Bool) : RedisM (Option Int) :=
  rop fails fun cs => (cs.wagered_24h, cs)

def opSetLastDepTime (fails : Nat → Bool) (t : Int) : RedisM Unit :=
  rop fails fun cs => ((), { cs with last_deposit_time := some t })

def opDelLastDepTime (fails : Nat → Bool) : RedisM Unit :=
  rop fails fun cs => ((), { cs with last_deposit_time := none })

def _rollback_deposit_f (fails : Nat → Bool) (amount_cents : Int) :
    RedisM Unit := do
  let _ ← opIncrDepVol fails (-amount_cents)
  let _ ← opIncrDepCnt fails (-1)
  pure ()

def _rollback_withdrawal_f (fails : Nat → Bool) (amount_cents : Int) :
    RedisM Unit := do
  let _ ← opIncrWdVol fails (-amount_cents)
  let _ ← opIncrWdCnt1h fails (-1)
  let _ ← opIncrWdCnt24h fails (-1)
  let _ ← opIncrWagered fails (-1)
  opDelLastDepTime fails

/-- Failure-injecting `_check_deposit`, operation for operation in
source order. -/
def _check_deposit_f (fails : Nat → Bool) (amount_cents now : Int) :
    RedisM CheckResult := do
  let new_vol_cents ← opIncrDepVol fails amount_cents
  opExpire fails
  let new_count ← opIncrDepCnt fails 1
  opExpire fails
  if new_vol_cents > DAILY_DEPOSIT_LIMIT_CENTS then do
    _rollback_deposit_f fails amount_cents
    pure ⟨false, 100, .depositLimitExceeded new_vol_cents, new_vol_cents - amount_cents⟩
  else if new_count > DEPOSIT_VELOCITY_LIMIT_24H ∧ new_vol_cents > 5000 * 100 then
    pure ⟨false, 95, .structuringDetected new_count new_vol_cents, new_vol_cents⟩
  else if new_vol_cents ≥ 900000 then
    pure ⟨true, 80, .depositNearLimit new_vol_cents, new_vol_cents⟩
  else do
    opSetLastDepTime fails now
    opExpire fails
    pure ⟨true, 0, .safe, new_vol_cents⟩

def _withdrawal_rule6_f (new_vol_cents new_count_24h : Int) :
    RedisM CheckResult :=
  if new_count_24h ≥ 10 then
    pure ⟨true, 70, .highWithdrawalFrequency new_count_24h, new_vol_cents⟩
  else
    pure ⟨true, 0, .safe, new_vol_cents⟩

def _withdrawal_rule5_f (fails : Nat → Bool)
    (amount_cents new_vol_cents new_count_24h : Int) : RedisM CheckResult := do
  let total_deposited ← opGetDepVol fails
  let total_wagered ← opGetWagered fails
  match total_deposited with
  | none => _withdrawal_rule6_f new_vol_cents new_count_24h
  | some total_deposited_cents =>
    let total_wagered_cents := total_wagered.getD 0
    if total_deposited_cents > 0 ∧
        20 * total_wagered_cents < total_deposited_cents then do
      _rollback_withdrawal_f fails amount_cents
      pure ⟨false, 85, .insufficientBetting total_wagered_cents total_deposited_cents,
        new_vol_cents - amount_cents⟩
    else _withdrawal_rule6_f new_vol_cents new_count_24h

def _withdrawal_rule4_f (fails : Nat → Bool)
    (amount_cents now new_vol_cents new_count_24h : Int) : RedisM CheckResult := do
  let last_deposit_time ← opGetLastDepTime fails
  match last_deposit_time with
  | none => _withdrawal_rule5_f fails amount_cents new_vol_cents new_count_24h
  | some t =>
    if now - t < QUICK_WITHDRAWAL_WINDOW_SECONDS then do
      _rollback_withdrawal_f fails amount_cents
      pure ⟨false, 90, .quickWithdrawal (now - t), new_vol_cents - amount_cents⟩
    else _withdrawal_rule5_f fails amount_cents new_vol_cents new_count_24h

/-- Failure-injecting `_check_withdrawal`, operation for operation in
source order. -/
def _check_withdrawal_f (fails : Nat → Bool) (amount_cents now : Int) :
    RedisM CheckResult := do
  let new_vol_cents ← opIncrWdVol fails amount_cents
  opExpire fails
  let new_count_1h ← opIncrWdCnt1h fails 1
  opExpire fails
  let new_count_24h ← opIncrWdCnt24h fails 1
  opExpire fails
  if new_vol_cents > DAILY_WITHDRAWAL_LIMIT_CENTS then do
    _rollback_withdrawal_f fails amount_cents
    pure ⟨false, 100, .withdrawalLimitExceeded new_vol_cents, new_vol_cents - amount_cents⟩
  else if new_count_1h > WITHDRAWAL_VELOCITY_LIMIT_1H then do
    _rollback_withdrawal_f fails amount_cents
    pure ⟨false, 95, .velocityExceeded1h new_count_1h, new_vol_cents - amount_cents⟩
  else if new_count_24h > WITHDRAWAL_VELOCITY_LIMIT_24H then do
    _rollback_withdrawal_f fails amount_cents
    pure ⟨false, 90, .reverseSmurfing new_count_24h, new_vol_cents - amount_cents⟩
  else
    _withdrawal_rule4_f fails amount_cents now new_vol_cents new_count_24h

/-- `check_structuring` with its `try/except` boundary made explicit:
run the dispatched check against a store whose operations may raise; a
raise is caught here and converted to the fail-closed outcome
(`allowed=False`, score 100, generic system-error reason, total 0).
The counters keep whatever mutations happened before the failing
operation (the source has no compensation inside the handler). -/
def check_structuring_f (fails : Nat → Bool) (s : UserCounters) (amount : ℚ)
    (txn_type : String) (now : Int) : CheckResult × UserCounters :=
  if amount ≤ 0 then (⟨false, 100, .invalidAmount, 0⟩, s)
  else
    let amount_cents := to_cents amount
    if txn_type = "WITHDRAWAL" then
      match (_check_withdrawal_f fails amount_cents now).run.run ⟨s, 0⟩ with
      | (.ok r, st) => (r, st.cs)
      | (.error _, st) => (⟨false, 100, .systemErrorHistory, 0⟩, st.cs)
    else if txn_type = "DEPOSIT" then
      match (_check_deposit_f fails amount_cents now).run.run ⟨s, 0⟩ with
      | (.ok r, st) => (r, st.cs)
      | (.error _, st) => (⟨false, 100, .systemErrorHistory, 0⟩, st.cs)
    else (⟨false, 100, .invalidType txn_type, 0⟩, s)

/-- The wagering-ratio comparison of withdrawal rule 5, written with the
rational ratio exactly as in the source, agrees with the integer form
used in `_withdrawal_rule5` whenever the deposit volume is positive. -/
theorem wageringRatio_exact (w d : Int) (hd : 0 < d) :
    ((w : ℚ) / (d : ℚ) < MIN_WAGERING_RATIO) ↔ 20 * w < d := by
  have hd' : (0 : ℚ) < (d : ℚ) := by exact_mod_cast hd
  rw [ MIN_WAGERING_RATIO, div_lt_iff₀ hd']
  constructor
  · intro h
    have : (20 : ℚ) * (w : ℚ) < (d : ℚ) := by linarith
    exact_mod_cast this
  · intro h
    have : (20 : ℚ) * (w : ℚ) < (d : ℚ) := by exact_mod_cast h
    linarith

/-- The post-increment deposit state, against which `_check_deposit`
evaluates its rules. -/
def depIncr (s : UserCounters) (a : Int) : UserCounters :=
  { s with
    dep_vol_24h := some (incrby s.dep_vol_24h a),
    dep_cnt_24h := some (incrby s.dep_cnt_24h 1) }

/-- The post-increment withdrawal state, against which
`_check_withdrawal` evaluates its rules. -/
def wdIncr (s : UserCounters) (a : Int) : UserCounters :=
  { s with
    wd_vol_24h := some (incrby s.wd_vol_24h a),
    wd_cnt_1h := some (incrby s.wd_cnt_1h 1),
    wd_cnt_24h := some (incrby s.wd_cnt_24h 1) }

/-- True exactly on the smurfing denial reason of deposit rule 2. -/
def isStructuringDetected : Reason → Bool
  | .structuringDetected _ _ => true
  | _ => false

/-- True exactly on the quick-withdrawal denial reason of withdrawal
rule 4. -/
def isQuickWithdrawal : Reason → Bool
  | .quickWithdrawal _ => true
  | _ => false

/-- Every deposit check takes exactly one of the four source branches. -/
lemma deposit_cases (s : UserCounters) (a now : Int) :
    _check_deposit s a now =
      (⟨false, 100, .depositLimitExceeded (incrby s.dep_vol_24h a),
          incrby s.dep_vol_24h a - a⟩,
        _rollback_deposit (depIncr s a) a) ∨
    _check_deposit s a now =
      (⟨false, 95, .structuringDetected (incrby s.dep_cnt_24h 1) (incrby s.dep_vol_24h a),
          incrby s.dep_vol_24h a⟩,
        depIncr s a) ∨
    _check_deposit s a now =
      (⟨true, 80, .depositNearLimit (incrby s.dep_vol_24h a), incrby s.dep_vol_24h a⟩,
        depIncr s a) ∨
    _check_deposit s a now =
      (⟨true, 0, .safe, incrby s.dep_vol_24h a⟩,
        { depIncr s a with last_deposit_time := some now }) := by
  simp only [_check_deposit, depIncr]
  repeat' split
  all_goals first
    | exact Or.inl rfl
    | exact Or.inr (Or.inl rfl)
    | exact Or.inr (Or.inr (Or.inl rfl))
    | exact Or.inr (Or.inr (Or.inr rfl))

/-- Every withdrawal check either allows and leaves the post-increment
state, or denies and leaves the rolled-back post-increment state. -/
lemma withdrawal_state_cases (s : UserCounters) (a now : Int) :
    ((_check_withdrawal s a now).1.allowed = true ∧
      (_check_withdrawal s a now).2 = wdIncr s a) ∨
    ((_check_withdrawal s a now).1.allowed = false ∧
      (_check_withdrawal s a now).2 = _rollback_withdrawal (wdIncr s a) a) := by
  simp only [_check_withdrawal, _withdrawal_rule4, _withdrawal_rule5,
    _withdrawal_rule6, wdIncr]
  repeat' split
  all_goals first
    | exact Or.inl ⟨rfl, rfl⟩
    | exact Or.inr ⟨rfl, rfl⟩

/-- An allowed withdrawal passed the quick-withdrawal rule: whenever a
`last_deposit_time` was stored, at least the full window elapsed. -/
lemma withdrawal_allowed_quickpass (s : UserCounters) (a now : Int)
    (h : (_check_withdrawal s a now).1.allowed = true) :
    ∀ t, s.last_deposit_time = some t → now - t ≥ 3600 := by
  intro t hld
  by_contra hq
  rw [Int.not_le] at hq
  simp only [_check_withdrawal, _withdrawal_rule4, _withdrawal_rule5,
    _withdrawal_rule6, QUICK_WITHDRAWAL_WINDOW_SECONDS, hld] at h
  repeat' split at h
  all_goals simp at h

/-- An allowed withdrawal leaves `last_deposit_time` untouched. -/
lemma withdrawal_allowed_ldt (s : UserCounters) (a now : Int)
    (h : (_check_withdrawal s a now).1.allowed = true) :
    (_check_withdrawal s a now).2.last_deposit_time = s.last_deposit_time := by
  rcases withdrawal_state_cases s a now with ⟨_, hst⟩ | ⟨hf, _⟩
  · rw [hst]; rfl
  · rw [h] at hf; cases hf

/-- A quick-withdrawal denial can only arise when a `last_deposit_time`
is present and within the window. -/
lemma withdrawal_quick_reason (s : UserCounters) (a now : Int)
    (h : isQuickWithdrawal (_check_withdrawal s a now).1.reason = true) :
    ∃ t, s.last_deposit_time = some t ∧ now - t < 3600 := by
  cases hld : s.last_deposit_time with
  | none =>
    exfalso
    simp only [_check_withdrawal, _withdrawal_rule4, _withdrawal_rule5,
      _withdrawal_rule6, QUICK_WITHDRAWAL_WINDOW_SECONDS, hld] at h
    repeat' split at h
    all_goals simp [isQuickWithdrawal] at h
  | some t =>
    simp only [_check_withdrawal, _withdrawal_rule4, _withdrawal_rule5,
      _withdrawal_rule6, QUICK_WITHDRAWAL_WINDOW_SECONDS, hld] at h
    repeat' split at h
    all_goals first
      | exact ⟨t, rfl, by omega⟩
      | simp [isQuickWithdrawal] at h

/-- C1 (as stated) is false: a deposit denied by the fan-in/smurfing
rule is not rolled back — after the call the deposit counters keep
their incremented values instead of their pre-call values (500000 and
15 here). -/
theorem c1_counterexample :
    (_check_deposit
      { emptyCounters with dep_vol_24h := some 500000, dep_cnt_24h := some 15 }
      1000 0).1.allowed = false ∧
    ¬((_check_deposit
        { emptyCounters with dep_vol_24h := some 500000, dep_cnt_24h := some 15 }
        1000 0).2.dep_vol_24h.getD 0 = 500000 ∧
      (_check_deposit
        { emptyCounters with dep_vol_24h := some 500000, dep_cnt_24h := some 15 }
        1000 0).2.dep_cnt_24h.getD 0 = 15) := by decide

/-- C1 amended: every denial except the deposit fan-in/smurfing one
restores the numeric values of the counters it incremented (volume and
count for deposits; volume and both counts for withdrawals) before
returning; the smurfing denial performs no rollback, and a denied
withdrawal additionally decrements `wagered_24h` by one cent and
deletes `last_deposit_time`. -/
theorem c1_rollback_on_denial (s : UserCounters) (a now : Int) :
    ((_check_deposit s a now).1.allowed = false →
      isStructuringDetected (_check_deposit s a now).1.reason = false →
      ((_check_deposit s a now).2.dep_vol_24h.getD 0 = s.dep_vol_24h.getD 0 ∧
        (_check_deposit s a now).2.dep_cnt_24h.getD 0 = s.dep_cnt_24h.getD 0)) ∧
    ((_check_withdrawal s a now).1.allowed = false →
      ((_check_withdrawal s a now).2.wd_vol_24h.getD 0 = s.wd_vol_24h.getD 0 ∧
        (_check_withdrawal s a now).2.wd_cnt_1h.getD 0 = s.wd_cnt_1h.getD 0 ∧
        (_check_withdrawal s a now).2.wd_cnt_24h.getD 0 = s.wd_cnt_24h.getD 0 ∧
        (_check_withdrawal s a now).2.wagered_24h = some (s.wagered_24h.getD 0 - 1) ∧
        (_check_withdrawal s a now).2.last_deposit_time = none)) := by
  constructor
  · intro hden hstr
    rcases deposit_cases s a now with hc | hc | hc | hc
    · rw [hc]
      constructor
      · simp [_rollback_deposit, depIncr, incrby]
      · simp [_rollback_deposit, depIncr, incrby]
    · rw [hc] at hstr; simp [isStructuringDetected] at hstr
    · rw [hc] at hden; simp at hden
    · rw [hc] at hden; simp at hden
  · intro hden
    rcases withdrawal_state_cases s a now with ⟨hal, _⟩ | ⟨_, hst⟩
    · rw [hal] at hden; cases hden
    · rw [hst]
      refine ⟨?_, ?_, ?_, ?_, rfl⟩ <;>
        (simp [_rollback_withdrawal, wdIncr, incrby]; try omega)

/-- Witness for C1 amended: a hard-limit-denied deposit and a
hard-limit-denied withdrawal, both at a user with 1,000,000 cents of
24h deposits and 5,000,000 cents of 24h withdrawals. -/
theorem c1_rollback_on_denial_witness :
    ((_check_deposit
        { emptyCounters with dep_vol_24h := some 1000000, wd_vol_24h := some 5000000 }
        1 0).2.dep_vol_24h.getD 0 = 1000000 ∧
      (_check_deposit
        { emptyCounters with dep_vol_24h := some 1000000, wd_vol_24h := some 5000000 }
        1 0).2.dep_cnt_24h.getD 0 = 0) ∧
    ((_check_withdrawal
        { emptyCounters with dep_vol_24h := some 1000000, wd_vol_24h := some 5000000 }
        1 0).2.wd_vol_24h.getD 0 = 5000000 ∧
      (_check_withdrawal
        { emptyCounters with dep_vol_24h := some 1000000, wd_vol_24h := some 5000000 }
        1 0).2.wd_cnt_1h.getD 0 = 0 ∧
      (_check_withdrawal
        { emptyCounters with dep_vol_24h := some 1000000, wd_vol_24h := some 5000000 }
        1 0).2.wd_cnt_24h.getD 0 = 0 ∧
      (_check_withdrawal
        { emptyCounters with dep_vol_24h := some 1000000, wd_vol_24h := some 5000000 }
        1 0).2.wagered_24h = some (-1) ∧
      (_check_withdrawal
        { emptyCounters with dep_vol_24h := some 1000000, wd_vol_24h := some 5000000 }
        1 0).2.last_deposit_time = none) :=
  ⟨(c1_rollback_on_denial
      { emptyCounters with dep_vol_24h := some 1000000, wd_vol_24h := some 5000000 }
      1 0).1 (by decide) (by decide),
    (c1_rollback_on_denial
      { emptyCounters with dep_vol_24h := some 1000000, wd_vol_24h := some 5000000 }
      1 0).2 (by decide)⟩

/-- C3: a deposit pushing the 24h volume beyond 1,000,000 cents is
denied with score 100, the returned total is the pre-call volume, and
both deposit counters are restored to their pre-call values. -/
theorem c3_deposit_hard_limit (s : UserCounters) (a now : Int)
    (h : s.dep_vol_24h.getD 0 + a > 1000000) :
    (_check_deposit s a now).1 =
      ⟨false, 100, .depositLimitExceeded (s.dep_vol_24h.getD 0 + a),
        s.dep_vol_24h.getD 0⟩ ∧
    (_check_deposit s a now).2.dep_vol_24h.getD 0 = s.dep_vol_24h.getD 0 ∧
    (_check_deposit s a now).2.dep_cnt_24h.getD 0 = s.dep_cnt_24h.getD 0 := by
  simp only [_check_deposit, incrby, DAILY_DEPOSIT_LIMIT_CENTS]
  rw [if_pos (show s.dep_vol_24h.getD 0 + a > 10000 * 100 by omega)]
  refine ⟨?_, ?_, ?_⟩
  · simp [CheckResult.mk.injEq]
  · simp [_rollback_deposit, incrby]
  · simp [_rollback_deposit, incrby]

/-- Witness for C3: a first deposit of 1,000,001 cents. -/
theorem c3_deposit_hard_limit_witness :
    (_check_deposit emptyCounters 1000001 0).1 =
      ⟨false, 100, .depositLimitExceeded 1000001, 0⟩ ∧
    (_check_deposit emptyCounters 1000001 0).2.dep_vol_24h.getD 0 = 0 ∧
    (_check_deposit emptyCounters 1000001 0).2.dep_cnt_24h.getD 0 = 0 :=
  c3_deposit_hard_limit emptyCounters 1000001 0 (by decide)

/-- C5 (as stated) is false at the boundary: a first deposit of exactly
900,000 cents keeps the resulting volume at 900,000 (which is "at most
900,000") and the count at 1, yet the near-limit warning fires with
score 80, not 0. -/
theorem c5_counterexample :
    incrby emptyCounters.dep_vol_24h 900000 ≤ 900000 ∧
    incrby emptyCounters.dep_cnt_24h 1 ≤ 15 ∧
    (_check_deposit emptyCounters 900000 0).1.allowed = true ∧
    (_check_deposit emptyCounters 900000 0).1.risk_score = 80 ∧
    ¬(_check_deposit emptyCounters 900000 0).1.risk_score = 0 := by decide

/-- C5 amended: a valid deposit whose resulting 24h volume stays
strictly below 900,000 cents with a resulting count of at most 15 is
allowed with score 0 (the near-limit warning fires at or above 900,000
cents). -/
theorem c5_safe_deposit (s : UserCounters) (a now : Int)
    (h0 : 0 < a)
    (h1 : s.dep_vol_24h.getD 0 + a < 900000)
    (h2 : s.dep_cnt_24h.getD 0 + 1 ≤ 15) :
    (_check_deposit s a now).1 = ⟨true, 0, .safe, s.dep_vol_24h.getD 0 + a⟩ := by
  simp only [_check_deposit, incrby, DAILY_DEPOSIT_LIMIT_CENTS,
    DEPOSIT_VELOCITY_LIMIT_24H]
  rw [if_neg (by omega), if_neg (by omega), if_neg (by omega)]

/-- Witness for C5 amended: a first deposit of 100 cents. -/
theorem c5_safe_deposit_witness :
    (_check_deposit emptyCounters 100 0).1 = ⟨true, 0, .safe, 100⟩ :=
  c5_safe_deposit emptyCounters 100 0 (by decide) (by decide) (by decide)

/-- C8: every denied withdrawal leaves `wagered_24h` at its pre-call
numeric value minus one cent, whatever the withdrawal amount; in
particular, from an absent or non-positive counter the post-call value
is negative. -/
theorem c8_denied_withdrawal_decrements_wagered (s : UserCounters) (a now : Int)
    (h : (_check_withdrawal s a now).1.allowed = false) :
    (_check_withdrawal s a now).2.wagered_24h = some (s.wagered_24h.getD 0 - 1) ∧
    (s.wagered_24h.getD 0 ≤ 0 →
      (_check_withdrawal s a now).2.wagered_24h.getD 0 < 0) := by
  rcases withdrawal_state_cases s a now with ⟨hal, _⟩ | ⟨_, hst⟩
  · rw [hal] at h; cases h
  · rw [hst]
    constructor
    · simp [_rollback_withdrawal, wdIncr, incrby]
      omega
    · intro h0
      simp [_rollback_withdrawal, wdIncr, incrby]
      omega

/-- Witness for C8: a hard-limit-denied withdrawal at a user with no
`wagered_24h` key leaves the counter at -1. -/
theorem c8_denied_withdrawal_decrements_wagered_witness :
    (_check_withdrawal { emptyCounters with wd_vol_24h := some 5000000 }
      1 0).2.wagered_24h = some (-1) ∧
    ((0 : Int) ≤ 0 →
      (_check_withdrawal { emptyCounters with wd_vol_24h := some 5000000 }
        1 0).2.wagered_24h.getD 0 < 0) :=
  ⟨(c8_denied_withdrawal_decrements_wagered
      { emptyCounters with wd_vol_24h := some 5000000 } 1 0 (by decide)).1,
    fun _ => (c8_denied_withdrawal_decrements_wagered
      { emptyCounters with wd_vol_24h := some 5000000 } 1 0 (by decide)).2
      (by decide)⟩

/-- C9: a denied withdrawal deletes `last_deposit_time`, and for two
consecutive withdrawals with a monotone clock and no intervening
approved deposit, the second one is never denied by the
quick-withdrawal rule. -/
theorem c9_no_quick_denial_after_withdrawal (s : UserCounters)
    (a1 t1 a2 t2 : Int) (hmono : t1 ≤ t2) :
    ((_check_withdrawal s a1 t1).1.allowed = false →
      (_check_withdrawal s a1 t1).2.last_deposit_time = none) ∧
    isQuickWithdrawal
      (_check_withdrawal (_check_withdrawal s a1 t1).2 a2 t2).1.reason = false := by
  constructor
  · intro hden
    rcases withdrawal_state_cases s a1 t1 with ⟨hal, _⟩ | ⟨_, hst⟩
    · rw [hal] at hden; cases hden
    · rw [hst]; rfl
  · by_contra hq
    rw [Bool.not_eq_false] at hq
    obtain ⟨u, hu, hlt⟩ := withdrawal_quick_reason _ a2 t2 hq
    rcases withdrawal_state_cases s a1 t1 with ⟨hal, _⟩ | ⟨_, hst⟩
    · rw [withdrawal_allowed_ldt s a1 t1 hal] at hu
      have := withdrawal_allowed_quickpass s a1 t1 hal u hu
      omega
    · rw [hst] at hu
      simp [_rollback_withdrawal] at hu

/-- Witness for C9: a deposit timestamp at time 0, a first withdrawal at
time 10 (denied by the quick rule, deleting the timestamp), and a second
withdrawal at time 20 that is not quick-denied. -/
theorem c9_no_quick_denial_after_withdrawal_witness :
    (_check_withdrawal { emptyCounters with last_deposit_time := some 0 }
      1 10).2.last_deposit_time = none ∧
    isQuickWithdrawal
      (_check_withdrawal
        (_check_withdrawal { emptyCounters with last_deposit_time := some 0 }
          1 10).2 1 20).1.reason = false :=
  ⟨(c9_no_quick_denial_after_withdrawal
      { emptyCounters with last_deposit_time := some 0 } 1 10 1 20
      (by decide)).1 (by decide),
    (c9_no_quick_denial_after_withdrawal
      { emptyCounters with last_deposit_time := some 0 } 1 10 1 20
      (by decide)).2⟩

/-- C10: a non-positive amount is rejected as "Invalid Amount" before
the transaction type is even examined, and an invalid type (with a
positive amount) is rejected with a reason naming the type; neither
path mutates any counter. -/
theorem c10_validation_order (s : UserCounters) (amount : ℚ)
    (txn_type : String) (now : Int) :
    (amount ≤ 0 →
      check_structuring s amount txn_type now =
        (⟨false, 100, .invalidAmount, 0⟩, s)) ∧
    (0 < amount → txn_type ≠ "DEPOSIT" → txn_type ≠ "WITHDRAWAL" →
      check_structuring s amount txn_type now =
        (⟨false, 100, .invalidType txn_type, 0⟩, s)) := by
  constructor
  · intro h
    simp only [check_structuring]
    rw [if_pos h]
  · intro h h1 h2
    simp only [check_structuring]
    rw [if_neg (not_le.mpr h), if_neg h2, if_neg h1]

/-- Witness for C10: a deposit of -3 with an invalid type is rejected
for the amount, and a positive amount with the same invalid type is
rejected for the type. -/
theorem c10_validation_order_witness :
    check_structuring emptyCounters (-3) "TRANSFER" 0 =
      (⟨false, 100, .invalidAmount, 0⟩, emptyCounters) ∧
    check_structuring emptyCounters 5 "TRANSFER" 0 =
      (⟨false, 100, .invalidType "TRANSFER", 0⟩, emptyCounters) :=
  ⟨(c10_validation_order emptyCounters (-3) "TRANSFER" 0).1 (by decide),
    (c10_validation_order emptyCounters 5 "TRANSFER" 0).2 (by decide)
      (by decide) (by decide)⟩

/-- When withdrawal rules 1-4 pass, the deposit volume is present and
positive, and the wagered amount is below 5% of it (integer form), the
withdrawal is denied by rule 5 with score 85 and the pre-call volume as
total. -/
lemma withdrawal_rule5_denies (s : UserCounters) (a now d : Int)
    (h1 : s.wd_vol_24h.getD 0 + a ≤ 5000000)
    (h2 : s.wd_cnt_1h.getD 0 + 1 ≤ 5)
    (h3 : s.wd_cnt_24h.getD 0 + 1 ≤ 12)
    (h4 : ∀ t, s.last_deposit_time = some t → now - t ≥ 3600)
    (h5 : s.dep_vol_24h = some d)
    (h6 : 0 < d)
    (hw : 20 * s.wagered_24h.getD 0 < d) :
    (_check_withdrawal s a now).1 =
      ⟨false, 85, .insufficientBetting (s.wagered_24h.getD 0) d,
        s.wd_vol_24h.getD 0⟩ := by
  cases hld : s.last_deposit_time with
  | none =>
    simp only [_check_withdrawal, _withdrawal_rule4, _withdrawal_rule5,
      _withdrawal_rule6, incrby, DAILY_WITHDRAWAL_LIMIT_CENTS,
      WITHDRAWAL_VELOCITY_LIMIT_1H, WITHDRAWAL_VELOCITY_LIMIT_24H,
      QUICK_WITHDRAWAL_WINDOW_SECONDS, hld, h5]
    rw [if_neg (by omega), if_neg (by omega), if_neg (by omega),
      if_pos ⟨h6, hw⟩]
    simp [CheckResult.mk.injEq]
  | some t =>
    have ht := h4 t hld
    simp only [_check_withdrawal, _withdrawal_rule4, _withdrawal_rule5,
      _withdrawal_rule6, incrby, DAILY_WITHDRAWAL_LIMIT_CENTS,
      WITHDRAWAL_VELOCITY_LIMIT_1H, WITHDRAWAL_VELOCITY_LIMIT_24H,
      QUICK_WITHDRAWAL_WINDOW_SECONDS, hld, h5]
    rw [if_neg (by omega), if_neg (by omega), if_neg (by omega),
      if_neg (by omega), if_pos ⟨h6, hw⟩]
    simp [CheckResult.mk.injEq]

/-- When withdrawal rules 1-4 pass, the deposit volume is present and
positive, and the wagered amount is at least 5% of it (integer form),
the withdrawal is allowed (safe, or rule-6 warning). -/
lemma withdrawal_rule5_passes (s : UserCounters) (a now d : Int)
    (h1 : s.wd_vol_24h.getD 0 + a ≤ 5000000)
    (h2 : s.wd_cnt_1h.getD 0 + 1 ≤ 5)
    (h3 : s.wd_cnt_24h.getD 0 + 1 ≤ 12)
    (h4 : ∀ t, s.last_deposit_time = some t → now - t ≥ 3600)
    (h5 : s.dep_vol_24h = some d)
    (h6 : 0 < d)
    (hw : d ≤ 20 * s.wagered_24h.getD 0) :
    (_check_withdrawal s a now).1.allowed = true := by
  cases hld : s.last_deposit_time with
  | none =>
    simp only [_check_withdrawal, _withdrawal_rule4, _withdrawal_rule5,
      _withdrawal_rule6, incrby, DAILY_WITHDRAWAL_LIMIT_CENTS,
      WITHDRAWAL_VELOCITY_LIMIT_1H, WITHDRAWAL_VELOCITY_LIMIT_24H,
      QUICK_WITHDRAWAL_WINDOW_SECONDS, hld, h5]
    rw [if_neg (by omega), if_neg (by omega), if_neg (by omega),
      if_neg (by omega)]
    split <;> rfl
  | some t =>
    have ht := h4 t hld
    simp only [_check_withdrawal, _withdrawal_rule4, _withdrawal_rule5,
      _withdrawal_rule6, incrby, DAILY_WITHDRAWAL_LIMIT_CENTS,
      WITHDRAWAL_VELOCITY_LIMIT_1H, WITHDRAWAL_VELOCITY_LIMIT_24H,
      QUICK_WITHDRAWAL_WINDOW_SECONDS, hld, h5]
    rw [if_neg (by omega), if_neg (by omega), if_neg (by omega),
      if_neg (by omega), if_neg (by omega)]
    split <;> rfl

/-- C2: the five blocking withdrawal rules fire in source order — hard
daily limit (score 100), hourly velocity (score 95), daily velocity
(score 90), quick withdrawal (score 90), low wagering ratio (score 85)
— the first match determining the outcome, and every blocking outcome
returns the 24h volume before this withdrawal as total. -/
theorem c2_withdrawal_rule_order (s : UserCounters) (a now : Int) :
    (s.wd_vol_24h.getD 0 + a > 5000000 →
      (_check_withdrawal s a now).1 =
        ⟨false, 100, .withdrawalLimitExceeded (s.wd_vol_24h.getD 0 + a),
          s.wd_vol_24h.getD 0⟩) ∧
    (s.wd_vol_24h.getD 0 + a ≤ 5000000 → s.wd_cnt_1h.getD 0 + 1 > 5 →
      (_check_withdrawal s a now).1 =
        ⟨false, 95, .velocityExceeded1h (s.wd_cnt_1h.getD 0 + 1),
          s.wd_vol_24h.getD 0⟩) ∧
    (s.wd_vol_24h.getD 0 + a ≤ 5000000 → s.wd_cnt_1h.getD 0 + 1 ≤ 5 →
      s.wd_cnt_24h.getD 0 + 1 > 12 →
      (_check_withdrawal s a now).1 =
        ⟨false, 90, .reverseSmurfing (s.wd_cnt_24h.getD 0 + 1),
          s.wd_vol_24h.getD 0⟩) ∧
    (∀ t, s.wd_vol_24h.getD 0 + a ≤ 5000000 → s.wd_cnt_1h.getD 0 + 1 ≤ 5 →
      s.wd_cnt_24h.getD 0 + 1 ≤ 12 → s.last_deposit_time = some t →
      now - t < 3600 →
      (_check_withdrawal s a now).1 =
        ⟨false, 90, .quickWithdrawal (now - t), s.wd_vol_24h.getD 0⟩) ∧
    (∀ d, s.wd_vol_24h.getD 0 + a ≤ 5000000 → s.wd_cnt_1h.getD 0 + 1 ≤ 5 →
      s.wd_cnt_24h.getD 0 + 1 ≤ 12 →
      (∀ t, s.last_deposit_time = some t → now - t ≥ 3600) →
      s.dep_vol_24h = some d → 0 < d →
      ((s.wagered_24h.getD 0 : ℚ) / (d : ℚ) < MIN_WAGERING_RATIO) →
      (_check_withdrawal s a now).1 =
        ⟨false, 85, .insufficientBetting (s.wagered_24h.getD 0) d,
          s.wd_vol_24h.getD 0⟩) := by
  refine ⟨?_, ?_, ?_, ?_, ?_⟩
  · intro h
    simp only [_check_withdrawal, incrby, DAILY_WITHDRAWAL_LIMIT_CENTS]
    rw [if_pos (by omega)]
    simp [CheckResult.mk.injEq]
  · intro h1 h2
    simp only [_check_withdrawal, incrby, DAILY_WITHDRAWAL_LIMIT_CENTS,
      WITHDRAWAL_VELOCITY_LIMIT_1H]
    rw [if_neg (by omega), if_pos (by omega)]
    simp [CheckResult.mk.injEq]
  · intro h1 h2 h3
    simp only [_check_withdrawal, incrby, DAILY_WITHDRAWAL_LIMIT_CENTS,
      WITHDRAWAL_VELOCITY_LIMIT_1H, WITHDRAWAL_VELOCITY_LIMIT_24H]
    rw [if_neg (by omega), if_neg (by omega), if_pos (by omega)]
    simp [CheckResult.mk.injEq]
  · intro t h1 h2 h3 hld hq
    simp only [_check_withdrawal, _withdrawal_rule4, incrby,
      DAILY_WITHDRAWAL_LIMIT_CENTS, WITHDRAWAL_VELOCITY_LIMIT_1H,
      WITHDRAWAL_VELOCITY_LIMIT_24H, QUICK_WITHDRAWAL_WINDOW_SECONDS, hld]
    rw [if_neg (by omega), if_neg (by omega), if_neg (by omega),
      if_pos (by omega)]
    simp [CheckResult.mk.injEq]
  · intro d h1 h2 h3 h4 h5 h6 hr
    exact withdrawal_rule5_denies s a now d h1 h2 h3 h4 h5 h6
      ((wageringRatio_exact _ _ h6).mp hr)

/-- Witness for C2: one concrete blocking withdrawal per rule — hard
limit, hourly velocity, daily velocity, quick withdrawal, low wagering
ratio — each with the pre-call volume as total. -/
theorem c2_withdrawal_rule_order_witness :
    (_check_withdrawal { emptyCounters with wd_vol_24h := some 5000000 }
        1 0).1 = ⟨false, 100, .withdrawalLimitExceeded 5000001, 5000000⟩ ∧
    (_check_withdrawal { emptyCounters with wd_cnt_1h := some 5 }
        100 0).1 = ⟨false, 95, .velocityExceeded1h 6, 0⟩ ∧
    (_check_withdrawal { emptyCounters with wd_cnt_24h := some 12 }
        100 0).1 = ⟨false, 90, .reverseSmurfing 13, 0⟩ ∧
    (_check_withdrawal { emptyCounters with last_deposit_time := some 0 }
        100 10).1 = ⟨false, 90, .quickWithdrawal 10, 0⟩ ∧
    (_check_withdrawal
        { emptyCounters with dep_vol_24h := some 100000, wagered_24h := some 4000 }
        100 0).1 = ⟨false, 85, .insufficientBetting 4000 100000, 0⟩ :=
  ⟨(c2_withdrawal_rule_order
      { emptyCounters with wd_vol_24h := some 5000000 } 1 0).1 (by decide),
    (c2_withdrawal_rule_order
      { emptyCounters with wd_cnt_1h := some 5 } 100 0).2.1
      (by decide) (by decide),
    (c2_withdrawal_rule_order
      { emptyCounters with wd_cnt_24h := some 12 } 100 0).2.2.1
      (by decide) (by decide) (by decide),
    (c2_withdrawal_rule_order
      { emptyCounters with last_deposit_time := some 0 } 100 10).2.2.2.1 0
      (by decide) (by decide) (by decide) rfl (by decide),
    (c2_withdrawal_rule_order
      { emptyCounters with dep_vol_24h := some 100000, wagered_24h := some 4000 }
      100 0).2.2.2.2 100000
      (by decide) (by decide) (by decide) (fun t ht => nomatch ht) rfl
      (by decide) ((wageringRatio_exact 4000 100000 (by decide)).mpr (by decide))⟩

/-- C6: with the hard-limit, velocity, and quick-withdrawal rules
passed and a positive 24h deposit volume present, a wagered/deposited
ratio strictly below 0.05 denies the withdrawal with score 85, and a
ratio of at least 0.05 lets the same withdrawal through. -/
theorem c6_wagering_ratio_gate (s : UserCounters) (a now d : Int)
    (h1 : s.wd_vol_24h.getD 0 + a ≤ 5000000)
    (h2 : s.wd_cnt_1h.getD 0 + 1 ≤ 5)
    (h3 : s.wd_cnt_24h.getD 0 + 1 ≤ 12)
    (h4 : ∀ t, s.last_deposit_time = some t → now - t ≥ 3600)
    (h5 : s.dep_vol_24h = some d)
    (h6 : 0 < d) :
    (((s.wagered_24h.getD 0 : ℚ) / (d : ℚ) < MIN_WAGERING_RATIO →
        (_check_withdrawal s a now).1.allowed = false ∧
        (_check_withdrawal s a now).1.risk_score = 85) ∧
      ( MIN_WAGERING_RATIO ≤ ((s.wagered_24h.getD 0 : ℚ) / (d : ℚ)) →
        (_check_withdrawal s a now).1.allowed = true)) := by
  constructor
  · intro hr
    rw [withdrawal_rule5_denies s a now d h1 h2 h3 h4 h5 h6
      ((wageringRatio_exact _ _ h6).mp hr)]
    exact ⟨rfl, rfl⟩
  · intro hr
    have hw : d ≤ 20 * s.wagered_24h.getD 0 := by
      by_contra hc
      rw [Int.not_le] at hc
      exact absurd hr (not_le.mpr ((wageringRatio_exact _ _ h6).mpr hc))
    exact withdrawal_rule5_passes s a now d h1 h2 h3 h4 h5 h6 hw

/-- Witness for C6: the spec example — 24h deposits of 100,000 cents
with 4,000 cents wagered (4%) denies the withdrawal at score 85, and
the same withdrawal with 5,000 cents wagered (5%) is allowed. -/
theorem c6_wagering_ratio_gate_witness :
    ((_check_withdrawal
        { emptyCounters with dep_vol_24h := some 100000, wagered_24h := some 4000 }
        1000 0).1.allowed = false ∧
      (_check_withdrawal
        { emptyCounters with dep_vol_24h := some 100000, wagered_24h := some 4000 }
        1000 0).1.risk_score = 85) ∧
    (_check_withdrawal
        { emptyCounters with dep_vol_24h := some 100000, wagered_24h := some 5000 }
        1000 0).1.allowed = true :=
  ⟨(c6_wagering_ratio_gate
      { emptyCounters with dep_vol_24h := some 100000, wagered_24h := some 4000 }
      1000 0 100000 (by decide) (by decide) (by decide)
      (fun t ht => nomatch ht) rfl (by decide)).1
      ((wageringRatio_exact 4000 100000 (by decide)).mpr (by decide)),
    (c6_wagering_ratio_gate
      { emptyCounters with dep_vol_24h := some 100000, wagered_24h := some 5000 }
      1000 0 100000 (by decide) (by decide) (by decide)
      (fun t ht => nomatch ht) rfl (by decide)).2
      (le_of_not_lt fun hc =>
        absurd ((wageringRatio_exact 5000 100000 (by decide)).mp hc)
          (by decide))⟩

/-- C7: the Wager Recorder rejects non-positive wagers and wagers above
100,000 currency units without touching `wagered_24h`, and on success
it has incremented `wagered_24h` by exactly the amount in cents,
returning the new total. -/
theorem c7_wager_recorder (s : UserCounters) (a : ℚ) :
    (a ≤ 0 →
      record_user_wager s a =
        (.failure "Wager amount must be greater than 0", s)) ∧
    (a > 100000 →
      record_user_wager s a =
        (.failure "Wager amount exceeds maximum ($100,000)", s)) ∧
    (∀ t s2, record_user_wager s a = (.success t, s2) →
      t = incrby s.wagered_24h (to_cents a) ∧
      s2 = { s with wagered_24h := some t }) ∧
    (0 < a →
      record_wager s a =
        (.success (incrby s.wagered_24h (to_cents a)),
          { s with wagered_24h := some (incrby s.wagered_24h (to_cents a)) })) := by
  refine ⟨?_, ?_, ?_, ?_⟩
  · intro h
    simp only [record_user_wager]
    rw [if_pos h]
  · intro h
    have h0 : ¬a ≤ 0 := by
      intro hc
      exact absurd (lt_of_le_of_lt hc (by norm_num : (0 : ℚ) < 100000))
        (not_lt.mpr (le_of_lt h))
    simp only [record_user_wager]
    rw [if_neg h0, if_pos h]
  · intro t s2 h
    simp only [record_user_wager] at h
    split at h
    · cases h
    split at h
    · cases h
    split at h
    · cases h
    · rw [Prod.mk.injEq, WagerOutcome.success.injEq] at h
      exact ⟨h.1.symm, by rw [← h.2, ← h.1]⟩
  · intro h
    simp only [record_wager]
    rw [if_neg (not_le.mpr h)]

/-- Witness for C7: a -5 wager and a 200,000 wager are rejected without
mutation; a 250-unit wager through the endpoint records 25,000 cents;
the engine-level recorder accepts 250 directly. -/
theorem c7_wager_recorder_witness :
    record_user_wager emptyCounters (-5) =
      (.failure "Wager amount must be greater than 0", emptyCounters) ∧
    record_user_wager emptyCounters 200000 =
      (.failure "Wager amount exceeds maximum ($100,000)", emptyCounters) ∧
    ((25000 : Int) = incrby emptyCounters.wagered_24h (to_cents 250) ∧
      ({ emptyCounters with wagered_24h := some 25000 } : UserCounters) =
        { emptyCounters with wagered_24h := some 25000 }) ∧
    record_wager emptyCounters 250 =
      (.success (incrby emptyCounters.wagered_24h (to_cents 250)),
        { emptyCounters with
          wagered_24h := some (incrby emptyCounters.wagered_24h (to_cents 250)) }) :=
  ⟨(c7_wager_recorder emptyCounters (-5)).1 (by decide),
    (c7_wager_recorder emptyCounters 200000).2.1 (by decide),
    (c7_wager_recorder emptyCounters 250).2.2.1 25000
      { emptyCounters with wagered_24h := some 25000 } (by decide),
    (c7_wager_recorder emptyCounters 250).2.2.2 (by decide)⟩

/-- C4: whenever the dispatched check's run against the store raises at
any operation, `check_structuring` catches it and returns the
fail-closed outcome — denied, score 100, generic system-error reason,
total 0 — so no store failure escapes and none produces an allowed
outcome. -/
theorem c4_store_failure_fail_closed (fails : Nat → Bool) (s : UserCounters)
    (amount : ℚ) (txn_type : String) (now : Int)
    (hamt : 0 < amount)
    (hty : txn_type = "DEPOSIT" ∨ txn_type = "WITHDRAWAL")
    (hfail : ∃ st, ((if txn_type = "WITHDRAWAL" then
          _check_withdrawal_f fails (to_cents amount) now
        else
          _check_deposit_f fails (to_cents amount) now).run.run ⟨s, 0⟩) =
        (Except.error (), st)) :
    (check_structuring_f fails s amount txn_type now).1 =
      ⟨false, 100, .systemErrorHistory, 0⟩ := by
  obtain ⟨st, hst⟩ := hfail
  rcases hty with h | h <;> subst h
  · have hst2 : (_check_deposit_f fails (to_cents amount) now).run.run ⟨s, 0⟩ =
        (Except.error (), st) := by simpa using hst
    simp only [check_structuring_f]
    rw [if_neg (not_le.mpr hamt)]
    simp [hst2]
  · have hst2 : (_check_withdrawal_f fails (to_cents amount) now).run.run ⟨s, 0⟩ =
        (Except.error (), st) := by simpa using hst
    simp only [check_structuring_f]
    rw [if_neg (not_le.mpr hamt)]
    simp [hst2]

/-- Witness for C4: the very first store operation (the `INCRBY` on the
deposit volume) raises for a deposit of 1 unit; the outcome is the
fail-closed denial. -/
theorem c4_store_failure_fail_closed_witness :
    (check_structuring_f (fun i => i == 0) emptyCounters 1 "DEPOSIT" 0).1 =
      ⟨false, 100, .systemErrorHistory, 0⟩ :=
  c4_store_failure_fail_closed (fun i => i == 0) emptyCounters 1 "DEPOSIT" 0
    (by decide) (Or.inl rfl) ⟨⟨emptyCounters, 0⟩, rfl⟩
